import Mathlib

/-
Verification of the patch-finder core (src/patchfinder/context.py and
src/patchfinder/utils.py) against its natural-language specification.

The Python code is shallowly embedded: classes become structures, class
constructors become mk-functions, functions become Lean functions, and
fallible code returns Except.  Compiled regular-expression objects that a
function receives as parameters are embedded by their observable behaviour,
namely their anchored match test (String to Bool) and their group-capturing
search (String to Option (List String)); the concrete regex literals of the
source are embedded as hand-written character-list matchers, one per literal.
Characters outside the ASCII range are treated as in ASCII (the identifiers
and documents involved are ASCII).
-/

/-! ## String helpers -/

/-- Embedding of the str.rstrip() call in parse_file_by_block (utils.py:54):
drop trailing whitespace characters. -/
def rstrip (s : String) : String :=
  String.mk ((s.toList.reverse.dropWhile Char.isWhitespace).reverse)

/-- Split fetched text into its lines, as iterating over a Python file object
does (parse_file_by_block consumes the file line by line; the trailing newline
of each line is removed by the rstrip already embedded above). -/
def splitLines (s : String) : List String :=
  go s.toList []
where
  go : List Char → List Char → List String
    | [], acc => [String.mk acc.reverse]
    | '\n' :: rest, acc => String.mk acc.reverse :: go rest []
    | c :: rest, acc => go rest (c :: acc)

theorem string_append_empty (s : String) : s ++ "" = s := by
  cases s with
  | mk d => exact congrArg String.mk (List.append_nil d)

theorem string_append_assoc (a b c : String) : a ++ b ++ c = a ++ (b ++ c) := by
  cases a with
  | mk x =>
    cases b with
    | mk y =>
      cases c with
      | mk z => exact congrArg String.mk (List.append_assoc x y z)

theorem isPrefixOf_ex : ∀ (p l : List Char), p.isPrefixOf l = true → ∃ t, l = p ++ t
  | [], l, _ => ⟨l, rfl⟩
  | a :: p, [], h => by simp [List.isPrefixOf] at h
  | a :: p, b :: l, h => by
    simp only [List.isPrefixOf, Bool.and_eq_true, beq_iff_eq] at h
    obtain ⟨rfl, h2⟩ := h
    obtain ⟨t, rfl⟩ := isPrefixOf_ex p l h2
    exact ⟨t, rfl⟩

/-! ## Identifier patterns (context.py:132-136)

create_vuln matches the identifier, case-insensitively, against the regex
literals CVE-digits-digits, DSA-(3 or more digits)-digits and
RHSA:digits-digits, each anchored at both ends.  Case-insensitivity is
embedded by upper-casing the subject; as in Python, a lone trailing newline
is tolerated by the end anchor. -/

def idUpper (s : String) : List Char := s.toList.map Char.toUpper

/-- Tail of the three identifier regexes: one-or-more digits (at least
minFirst of them), a dash, one-or-more digits, end of subject. -/
def digitsDashDigitsEnd (minFirst : Nat) (l : List Char) : Bool :=
  let ds := l.takeWhile Char.isDigit
  let r1 := l.dropWhile Char.isDigit
  decide (minFirst ≤ ds.length) &&
  match r1 with
  | '-' :: r2 =>
    let ds2 := r2.takeWhile Char.isDigit
    let r3 := r2.dropWhile Char.isDigit
    (!ds2.isEmpty) && (r3.isEmpty || r3 == ['\n'])
  | _ => false

/-- Embedding of re.match of the CVE pattern of create_vuln (context.py:132). -/
def matches_cve_id (s : String) : Bool :=
  (['C', 'V', 'E', '-'].isPrefixOf (idUpper s)) && digitsDashDigitsEnd 1 ((idUpper s).drop 4)

/-- Embedding of re.match of the DSA pattern of create_vuln (context.py:134). -/
def matches_dsa_id (s : String) : Bool :=
  (['D', 'S', 'A', '-'].isPrefixOf (idUpper s)) && digitsDashDigitsEnd 3 ((idUpper s).drop 4)

/-- Embedding of re.match of the RHSA pattern of create_vuln (context.py:136). -/
def matches_rhsa_id (s : String) : Bool :=
  (['R', 'H', 'S', 'A', ':'].isPrefixOf (idUpper s)) && digitsDashDigitsEnd 1 ((idUpper s).drop 5)


/-! ## Data model (context.py)

packages is a Python dict from provider name to package name, or None. -/

def Packages := Option (List (String × String))

/-- A directly parsable Vulnerability instance (context.py:29-42): the base
class stores vuln_id, entrypoint_urls and packages.  CVE instances carry no
further state, so this structure is the representation of every vulnerability
usable by the default spider. -/
structure DirectVuln where
  vuln_id : String
  entrypoint_urls : List String
  packages : Packages

/-- A value passed as a keyword argument to UnparsableVulnerability.__init__
(context.py:61-74).  Compiled patterns are embedded by their behaviour:
matchPat is a pattern used through its anchored match test, searchPat a
pattern used through its group-capturing search. -/
inductive AttrValue where
  | matchPat (m : String → Bool)
  | searchPat (f : String → Option (List String))
  | boolV (b : Bool)
  | keyListV (l : List String)

/-- An UnparsableVulnerability instance (context.py:45-82).  The dynamically
injected attributes (self.__dict__.update over the filtered kwargs) are kept
in the attrs association list. -/
structure UnparsableVuln where
  vuln_id : String
  entrypoint_urls : List String
  packages : Packages
  base_url : String
  equivalent_vulns : List DirectVuln
  parse_mode : String
  attrs : List (String × AttrValue)

/-- The concrete class of the object built by create_vuln (context.py:130-138):
a CVE (directly parsable), or a DSA or RHSA (both subclasses of
UnparsableVulnerability). -/
inductive Vuln where
  | cveV (d : DirectVuln)
  | dsaV (u : UnparsableVuln)
  | rhsaV (u : UnparsableVuln)

/-- self.allowed_keys, the set of allowed keys for initialization
(context.py:66-67). -/
def allowed_keys : List String :=
  ["start_block", "end_block", "search_params", "as_per_block", "xpaths", "key_list"]

/-- Embedding of UnparsableVulnerability.__init__ (context.py:61-74): sets
base_url, equivalent_vulns = [], parse_mode, replaces a falsy entrypoint_urls
(None or empty) by [], injects exactly the kwargs whose key is in
allowed_keys, and lets the base initializer set vuln_id, entrypoint_urls and
packages. -/
def UnparsableVulnerability_init (vuln_id : String) (packages : Packages)
    (base_url parse_mode : String) (entrypoint_urls : Option (List String))
    (kwargs : List (String × AttrValue)) : UnparsableVuln :=
  let eps := match entrypoint_urls with
    | none => []
    | some l => l
  { vuln_id := vuln_id
    entrypoint_urls := eps
    packages := packages
    base_url := base_url
    equivalent_vulns := []
    parse_mode := parse_mode
    attrs := kwargs.filter (fun kv => decide (kv.1 ∈ allowed_keys)) }

/-- Embedding of CVE.__init__ (context.py:85-97): the three template
entrypoint URLs computed from the identifier. -/
def CVE_mk (vuln_id : String) (packages : Packages) : DirectVuln :=
  { vuln_id := vuln_id
    entrypoint_urls :=
      [ "https://nvd.nist.gov/vuln/detail/" ++ vuln_id
      , "https://cve.mitre.org/cgi-bin/cvename.cgi?name=" ++ vuln_id
      , "https://security-tracker.debian.org/tracker/" ++ vuln_id ]
    packages := packages }

/-! ### The DSA regex literals (context.py:106-108)

start_block is the regex "anchored: open bracket, one or more characters,
close bracket, space, the identifier"; end_block is "anchored: one or more
whitespace characters then an open bracket"; search_params is "anchored: one
or more whitespace characters, an open brace, one captured group of one or
more characters, a close brace" used through .search (the leading anchor
makes search and match agree). -/

/-- After the opening bracket: one or more consumed characters followed by
a closing bracket, a space and the identifier. -/
def scanBracketClose (vid : String) : List Char → Bool
  | [] => false
  | _ :: rest => (("] " ++ vid).toList.isPrefixOf rest) || scanBracketClose vid rest

/-- Match test of the DSA start_block pattern (context.py:106). -/
def dsa_start_block (vid : String) (line : String) : Bool :=
  match line.toList with
  | '[' :: rest => scanBracketClose vid rest
  | _ => false

/-- Match test of the DSA end_block pattern (context.py:107): whitespace run
then an opening bracket. -/
def dsa_end_block (line : String) : Bool :=
  match line.toList with
  | c :: rest => c.isWhitespace && dsa_end_after rest
  | [] => false
where
  dsa_end_after : List Char → Bool
    | [] => false
    | c :: r => (c == '[') || (c.isWhitespace && dsa_end_after r)

/-- Group-capturing search of the DSA search_params pattern (context.py:108):
a nonempty leading whitespace run, an opening brace, then the greedy group
runs to the last closing brace of the line (it must be nonempty). -/
def dsa_search_params (line : String) : Option (List String) :=
  let cs := line.toList
  let ws := cs.takeWhile Char.isWhitespace
  let rest := cs.dropWhile Char.isWhitespace
  if ws.isEmpty then none
  else
    match rest with
    | '\x7b' :: body =>
      match body.reverse.dropWhile (fun c => c != '\x7d') with
      | '\x7d' :: midRev =>
        if midRev.isEmpty then none else some [String.mk midRev.reverse]
      | _ => none
    | _ => none

/-- The fixed DSA tracker-list URL (context.py:104-105). -/
def dsa_base_url : String :=
  "https://salsa.debian.org/security-tracker-team/security-tracker/raw/master/data/DSA/list"

/-- Embedding of DSA.__init__ (context.py:100-115). -/
def DSA_mk (vuln_id : String) (packages : Packages) : UnparsableVuln :=
  UnparsableVulnerability_init vuln_id packages dsa_base_url "plain" none
    [ ("start_block", .matchPat (dsa_start_block vuln_id))
    , ("end_block", .matchPat dsa_end_block)
    , ("search_params", .searchPat dsa_search_params)
    , ("as_per_block", .boolV true) ]

/-- Embedding of RHSA.__init__ (context.py:118-127). -/
def RHSA_mk (vuln_id : String) (packages : Packages) : UnparsableVuln :=
  UnparsableVulnerability_init vuln_id packages
    ("https://access.redhat.com/labs/securitydataapi/cve.json?advisory=" ++ vuln_id)
    "json" none
    [ ("key_list", .keyListV ["CVE"]) ]

/-- Embedding of create_vuln (context.py:130-138): first matching pattern
wins; none returns None. -/
def create_vuln (vuln_id : String) (packages : Packages) : Option Vuln :=
  if matches_cve_id vuln_id then some (.cveV (CVE_mk vuln_id packages))
  else if matches_dsa_id vuln_id then some (.dsaV (DSA_mk vuln_id packages))
  else if matches_rhsa_id vuln_id then some (.rhsaV (RHSA_mk vuln_id packages))
  else none

/-- Attribute lookup on the dynamically injected attributes of an
UnparsableVulnerability instance. -/
def getAttr (u : UnparsableVuln) (k : String) : Option AttrValue :=
  (u.attrs.find? (fun kv => kv.1 == k)).map (fun kv => kv.2)


/-! ## Block extractor (utils.py:49-64)

parse_file_by_block scans lines in order; the block_found flag starts false;
a line matching start_block arms it; once armed, a line matching end_block
breaks out of the whole loop, otherwise a search_params match yields the
list of its captured groups.  Note that the function has no as_per_block
parameter: after the first end_block match it never re-arms. -/

def pfbGo (sb eb : String → Bool) (sp : String → Option (List String)) :
    List String → Bool → List (List String)
  | [], _ => []
  | l :: ls, block_found =>
    let line := rstrip l
    if block_found then
      if eb line then []
      else
        match sp line with
        | some groups => groups :: pfbGo sb eb sp ls true
        | none => pfbGo sb eb sp ls true
    else
      if sb line then pfbGo sb eb sp ls true
      else pfbGo sb eb sp ls false

/-- Embedding of parse_file_by_block (utils.py:49-64), the file given as its
list of lines, the compiled patterns given by their match behaviour. -/
def parse_file_by_block (lines : List String) (start_block end_block : String → Bool)
    (search_params : String → Option (List String)) : List (List String) :=
  pfbGo start_block end_block search_params lines false

/-! ## Dictionary-path extractor (utils.py:80-96) -/

/-- The nested values a parsed JSON document is made of (the values of the
Python data model that parse_dict walks over). -/
inductive PyVal where
  | str (s : String)
  | int (n : Int)
  | bool (b : Bool)
  | null
  | list (xs : List PyVal)
  | dict (entries : List (String × PyVal))

/-- The exceptions the embedded fragments can raise.  jsonDecodeError is the
generic json.JSONDecodeError raised by json.loads (utils.py:44); it carries
no source locator.  attributeError is the AttributeError raised when
parse_dict recurses into a non-dict value.  translationError is the
TranslationError of the specification (section 7); malformedSourceError is
the MalformedSourceError of the specification (section 7), carrying the
source locator — no code in the repository raises it. -/
inductive PyError where
  | jsonDecodeError
  | attributeError
  | translationError
  | malformedSourceError (locator : String)
deriving DecidableEq

/-- Embedding of re.match(key_list[0], key) in parse_dict (utils.py:85) for
the literal key patterns the code uses: a leading caret (redundant under
re.match) is stripped, a lone trailing dollar requires the end of the
subject (as in Python, a lone trailing newline is tolerated), every other
character matches itself. -/
def matchLit : List Char → List Char → Bool
  | [], _ => true
  | ['$'], s => s.isEmpty || s == ['\n']
  | _ :: _, [] => false
  | c :: p, d :: s => (c == d) && matchLit p s

def stripCaret : List Char → List Char
  | '^' :: rest => rest
  | l => l

def re_match (pattern s : String) : Bool :=
  matchLit (stripCaret pattern.toList) s.toList

/-- One level of the key loop of parse_dict (utils.py:84-95): every key of
the current mapping matching the pattern contributes, in key order, either
the key itself or its value (when the pattern is the last one), or the
results of the search continued into its value through sub. -/
def parse_dict_level (sub : PyVal → Except PyError (List PyVal)) (p : String)
    (last get_key : Bool) : List (String × PyVal) → Except PyError (List PyVal)
  | [] => .ok []
  | (k, v) :: es =>
    if re_match p k then
      if last then do
        let tail ← parse_dict_level sub p last get_key es
        .ok ((if get_key then PyVal.str k else v) :: tail)
      else do
        let here ← sub v
        let tail ← parse_dict_level sub p last get_key es
        .ok (here ++ tail)
    else parse_dict_level sub p last get_key es

/-- Embedding of parse_dict (utils.py:80-96).  An empty key_list returns []
before the dictionary is touched; recursing into a value that is not a
mapping raises AttributeError (Python calls .keys() on it). -/
def parse_dict (dictionary : PyVal) (key_list : List String) (get_key : Bool) :
    Except PyError (List PyVal) :=
  match key_list with
  | [] => .ok []
  | p :: rest =>
    match dictionary with
    | .dict entries =>
      parse_dict_level (fun v => parse_dict v rest get_key) p rest.isEmpty get_key entries
    | _ => .error .attributeError


/-! ## JSON handling (utils.py:43-46)

json.loads is embedded as a recursive-descent parser over the characters of
the body, with a fuel argument bounding the nesting depth (one unit of fuel
is spent per nested value, so the length of the input is always enough).
Numbers are parsed as integers — the repository never extracts a float.
Any ill-formed input yields the generic jsonDecodeError, exactly as
json.loads raises json.JSONDecodeError. -/

def skipWs (cs : List Char) : List Char := cs.dropWhile Char.isWhitespace

/-- Parse the remainder of a JSON string literal (the opening quote already
consumed) up to its closing quote, decoding the basic escapes. -/
def parseJString : List Char → Except PyError (String × List Char)
  | [] => .error .jsonDecodeError
  | '"' :: rest => .ok ("", rest)
  | '\\' :: e :: rest => do
    let c := if e = 'n' then '\n' else if e = 't' then '\t' else if e = 'r' then '\r' else e
    let (s, r) ← parseJString rest
    .ok (String.mk (c :: s.toList), r)
  | '\\' :: [] => .error .jsonDecodeError
  | c :: rest => do
    let (s, r) ← parseJString rest
    .ok (String.mk (c :: s.toList), r)

/-- Read the digits of an integer literal into its value. -/
def digitsToNat (acc : Nat) : List Char → Nat
  | [] => acc
  | c :: rest =>
    if c.isDigit then digitsToNat (acc * 10 + (c.toNat - 48)) rest else acc

/-- Parse a JSON integer literal (an optional minus sign then digits). -/
def parseJNumber (cs : List Char) : Except PyError (PyVal × List Char) :=
  let (neg, cs2) := match cs with
    | '-' :: rest => (true, rest)
    | _ => (false, cs)
  let ds := cs2.takeWhile Char.isDigit
  let rest := cs2.dropWhile Char.isDigit
  if ds.isEmpty then .error .jsonDecodeError
  else
    let n : Int := Int.ofNat (digitsToNat 0 ds)
    .ok (.int (if neg then -n else n), rest)

mutual

def parseJValue : Nat → List Char → Except PyError (PyVal × List Char)
  | 0, _ => .error .jsonDecodeError
  | f + 1, cs =>
    match skipWs cs with
    | '\x7b' :: rest =>
      match skipWs rest with
      | '\x7d' :: rest2 => .ok (.dict [], rest2)
      | rest2 => parseJMembers f rest2 []
    | '[' :: rest =>
      match skipWs rest with
      | ']' :: rest2 => .ok (.list [], rest2)
      | rest2 => parseJItems f rest2 []
    | '"' :: rest => do
      let (s, r) ← parseJString rest
      .ok (.str s, r)
    | 't' :: rest =>
      if ['r', 'u', 'e'].isPrefixOf rest then .ok (.bool true, rest.drop 3)
      else .error .jsonDecodeError
    | 'f' :: rest =>
      if ['a', 'l', 's', 'e'].isPrefixOf rest then .ok (.bool false, rest.drop 4)
      else .error .jsonDecodeError
    | 'n' :: rest =>
      if ['u', 'l', 'l'].isPrefixOf rest then .ok (.null, rest.drop 3)
      else .error .jsonDecodeError
    | c :: rest =>
      if c = '-' || c.isDigit then parseJNumber (c :: rest)
      else .error .jsonDecodeError
    | [] => .error .jsonDecodeError

def parseJMembers : Nat → List Char → List (String × PyVal) →
    Except PyError (PyVal × List Char)
  | 0, _, _ => .error .jsonDecodeError
  | f + 1, cs, acc =>
    match skipWs cs with
    | '"' :: rest => do
      let (k, rest2) ← parseJString rest
      match skipWs rest2 with
      | ':' :: rest3 => do
        let (v, rest4) ← parseJValue f rest3
        match skipWs rest4 with
        | ',' :: rest5 => parseJMembers f rest5 (acc ++ [(k, v)])
        | '\x7d' :: rest5 => .ok (.dict (acc ++ [(k, v)]), rest5)
        | _ => .error .jsonDecodeError
      | _ => .error .jsonDecodeError
    | _ => .error .jsonDecodeError

def parseJItems : Nat → List Char → List PyVal → Except PyError (PyVal × List Char)
  | 0, _, _ => .error .jsonDecodeError
  | f + 1, cs, acc => do
    let (v, rest) ← parseJValue f cs
    match skipWs rest with
    | ',' :: rest2 => parseJItems f rest2 (acc ++ [v])
    | ']' :: rest2 => .ok (.list (acc ++ [v]), rest2)
    | _ => .error .jsonDecodeError

end

/-- Embedding of json.loads (utils.py:44): parse one JSON value and require
that only whitespace follows it; any failure is the generic JSONDecodeError. -/
def json_loads (s : String) : Except PyError PyVal := do
  let (v, rest) ← parseJValue (s.length + 1) s.toList
  if (skipWs rest).isEmpty then .ok v else .error .jsonDecodeError


mutual

def pyValToXml : PyVal → String
  | .str s => s
  | .int n => toString n
  | .bool b => if b then "true" else "false"
  | .null => "null"
  | .list xs => pyListToXml xs
  | .dict es => pyDictToXml es

def pyListToXml : List PyVal → String
  | [] => ""
  | x :: xs => "<item>" ++ pyValToXml x ++ "</item>" ++ pyListToXml xs

def pyDictToXml : List (String × PyVal) → String
  | [] => ""
  | (k, v) :: es => "<" ++ k ++ ">" ++ pyValToXml v ++ "</" ++ k ++ ">" ++ pyDictToXml es

end

/-- Embedding of dicttoxml.dicttoxml (utils.py:45): a deterministic XML
rendering of the parsed value (its exact shape is irrelevant to the claims;
only that it is produced from the successfully parsed value matters). -/
def dicttoxml (v : PyVal) : String :=
  "<?xml version=\"1.0\" encoding=\"UTF-8\" ?><root>" ++ pyValToXml v ++ "</root>"

/-- A fetched response: its source locator and its body. -/
structure Response where
  url : String
  body : String

/-- Embedding of json_response_to_xml (utils.py:43-46): json.loads on the
body, then dicttoxml, then response.replace.  There is no handler around
json.loads, so its generic error propagates unchanged and untagged. -/
def json_response_to_xml (response : Response) : Except PyError Response := do
  let dictionary ← json_loads response.body
  let xml := dicttoxml dictionary
  .ok { url := response.url, body := xml }

/-! ## Translation resolver (specification, section 4.3)

UnparsableVulnerability.translate (context.py:76-78) and
Context.translate_vuln (context.py:20-21) are empty pass stubs in the
source, so the resolver is modelled from the specification. -/

/-- Modelled from the spec: the record-extraction half of the Translation
Resolver of section 4.3, whose implementation is missing from the source
(translate and translate_vuln are pass stubs).  Per the vulnerability's
content format it applies the matching extraction engine, already embedded
above from utils.py, to the fetched bytes: plain runs the block extractor
with the configured start_block, end_block and search_params patterns; json
parses the body with json.loads and collects the string values reached
through the configured key_list. -/
def extract_records (v : UnparsableVuln) (bytes : String) :
    Except PyError (List (List String)) :=
  if v.parse_mode = "plain" then
    match getAttr v "start_block", getAttr v "end_block", getAttr v "search_params" with
    | some (.matchPat sb), some (.matchPat eb), some (.searchPat sp) =>
      .ok (parse_file_by_block (splitLines bytes) sb eb sp)
    | _, _, _ => .ok []
  else if v.parse_mode = "json" then do
    let d ← json_loads bytes
    let kl := match getAttr v "key_list" with
      | some (.keyListV l) => l
      | _ => []
    let vals ← parse_dict d kl false
    .ok (vals.filterMap (fun x => match x with
      | .str s => some [s]
      | _ => none))
  else .ok []

/-- Modelled from the spec: the Translation Resolver of section 4.3, whose
implementation is missing from the source (translate and translate_vuln are
pass stubs).  Each extracted record is mapped into one DirectVulnerability
carrying the packages mapping forward unchanged; zero extracted records are
a TranslationError, never an empty equivalents list. -/
def resolve (v : UnparsableVuln) (bytes : String) : Except PyError (List DirectVuln) := do
  let records ← extract_records v bytes
  if records.isEmpty then .error .translationError
  else .ok (records.map (fun r => CVE_mk (r.headD "") v.packages))

/-! ## Helper lemmas for the classifier -/

theorem heads_of_prefixes {l p q : List Char} {a b : Char}
    (ha : (a :: p).isPrefixOf l = true) (hb : (b :: q).isPrefixOf l = true) : a = b := by
  obtain ⟨t1, h1⟩ := isPrefixOf_ex _ _ ha
  obtain ⟨t2, h2⟩ := isPrefixOf_ex _ _ hb
  rw [h1] at h2
  simp only [List.cons_append, List.cons.injEq] at h2
  exact h2.1

theorem matches_dsa_not_cve {s : String} (h : matches_dsa_id s = true) :
    matches_cve_id s = false := by
  cases hc : matches_cve_id s with
  | false => rfl
  | true =>
    simp only [matches_dsa_id, Bool.and_eq_true] at h
    simp only [matches_cve_id, Bool.and_eq_true] at hc
    exact absurd (heads_of_prefixes hc.1 h.1) (by decide)

theorem matches_rhsa_not_cve {s : String} (h : matches_rhsa_id s = true) :
    matches_cve_id s = false := by
  cases hc : matches_cve_id s with
  | false => rfl
  | true =>
    simp only [matches_rhsa_id, Bool.and_eq_true] at h
    simp only [matches_cve_id, Bool.and_eq_true] at hc
    exact absurd (heads_of_prefixes hc.1 h.1) (by decide)

theorem matches_rhsa_not_dsa {s : String} (h : matches_rhsa_id s = true) :
    matches_dsa_id s = false := by
  cases hc : matches_dsa_id s with
  | false => rfl
  | true =>
    simp only [matches_rhsa_id, Bool.and_eq_true] at h
    simp only [matches_dsa_id, Bool.and_eq_true] at hc
    exact absurd (heads_of_prefixes hc.1 h.1) (by decide)

/-! ## Claims about the identifier classifier -/

/-- Claim C2: every identifier matching a supported pattern (CVE, DSA, RHSA,
case-insensitively) is classified by create_vuln into the correct concrete
variant: a CVE (direct) with a non-empty entrypoints list, or a DSA or RHSA
(indirect) whose base_url is the expected absolute https locator. -/
theorem c2_classify_correct_variant (s : String) (pkgs : Packages) :
    (matches_cve_id s = true →
      create_vuln s pkgs = some (.cveV (CVE_mk s pkgs)) ∧
      (CVE_mk s pkgs).entrypoint_urls ≠ []) ∧
    (matches_dsa_id s = true →
      create_vuln s pkgs = some (.dsaV (DSA_mk s pkgs)) ∧
      (DSA_mk s pkgs).base_url = dsa_base_url ∧
      (∃ rest, (DSA_mk s pkgs).base_url = "https://" ++ rest)) ∧
    (matches_rhsa_id s = true →
      create_vuln s pkgs = some (.rhsaV (RHSA_mk s pkgs)) ∧
      (RHSA_mk s pkgs).base_url
        = "https://access.redhat.com/labs/securitydataapi/cve.json?advisory=" ++ s ∧
      (∃ rest, (RHSA_mk s pkgs).base_url = "https://" ++ rest)) := by
  refine ⟨fun h => ⟨by simp [create_vuln, h], by simp [CVE_mk]⟩, fun h => ?_, fun h => ?_⟩
  · have hc := matches_dsa_not_cve h
    refine ⟨by simp [create_vuln, hc, h], rfl, ?_⟩
    refine ⟨"salsa.debian.org/security-tracker-team/security-tracker/raw/master/data/DSA/list",
      ?_⟩
    show dsa_base_url = _
    decide
  · have hc := matches_rhsa_not_cve h
    have hd := matches_rhsa_not_dsa h
    refine ⟨by simp [create_vuln, hc, hd, h], rfl, ?_⟩
    refine ⟨"access.redhat.com/labs/securitydataapi/cve.json?advisory=" ++ s, ?_⟩
    rw [← string_append_assoc]
    exact congrArg (fun x => x ++ s) (by decide)

/-- Witness for C2 at the identifier DSA-4321-1. -/
theorem c2_witness :
    matches_dsa_id "DSA-4321-1" = true ∧
    create_vuln "DSA-4321-1" none = some (.dsaV (DSA_mk "DSA-4321-1" none)) :=
  ⟨by decide, ((c2_classify_correct_variant "DSA-4321-1" none).2.1 (by decide)).1⟩

/-- Claim C3: for every identifier matching the CVE pattern (in particular
CVE-2020-1234), create_vuln returns the CVE variant whose entrypoints are
exactly the three template URLs (NVD, MITRE, Debian security tracker), each
containing the literal identifier as a substring. -/
theorem c3_cve_three_entrypoints (s : String) (pkgs : Packages)
    (h : matches_cve_id s = true) :
    create_vuln s pkgs = some (.cveV (CVE_mk s pkgs)) ∧
    (CVE_mk s pkgs).entrypoint_urls =
      [ "https://nvd.nist.gov/vuln/detail/" ++ s
      , "https://cve.mitre.org/cgi-bin/cvename.cgi?name=" ++ s
      , "https://security-tracker.debian.org/tracker/" ++ s ] ∧
    (CVE_mk s pkgs).entrypoint_urls.length = 3 ∧
    ∀ u ∈ (CVE_mk s pkgs).entrypoint_urls, ∃ p q, u = p ++ s ++ q := by
  refine ⟨by simp [create_vuln, h], rfl, rfl, ?_⟩
  intro u hu
  simp only [CVE_mk, List.mem_cons, List.not_mem_nil, or_false] at hu
  rcases hu with rfl | rfl | rfl
  · exact ⟨"https://nvd.nist.gov/vuln/detail/", "", (string_append_empty _).symm⟩
  · exact ⟨"https://cve.mitre.org/cgi-bin/cvename.cgi?name=", "", (string_append_empty _).symm⟩
  · exact ⟨"https://security-tracker.debian.org/tracker/", "", (string_append_empty _).symm⟩

/-- Witness for C3 at the identifier CVE-2020-1234. -/
theorem c3_witness :
    matches_cve_id "CVE-2020-1234" = true ∧
    create_vuln "CVE-2020-1234" none = some (.cveV (CVE_mk "CVE-2020-1234" none)) ∧
    (CVE_mk "CVE-2020-1234" none).entrypoint_urls.length = 3 :=
  ⟨by decide, (c3_cve_three_entrypoints "CVE-2020-1234" none (by decide)).1,
    (c3_cve_three_entrypoints "CVE-2020-1234" none (by decide)).2.2.1⟩

/-- Claim C4: every identifier matching none of the supported patterns makes
create_vuln return None (the NotRecognized result) — the function is total,
so no exception escapes to the caller. -/
theorem c4_unrecognized_returns_none (s : String) (pkgs : Packages)
    (h1 : matches_cve_id s = false) (h2 : matches_dsa_id s = false)
    (h3 : matches_rhsa_id s = false) :
    create_vuln s pkgs = none := by
  simp [create_vuln, h1, h2, h3]

/-- Witness for C4 at the unsupported identifier foo. -/
theorem c4_witness :
    matches_cve_id "foo" = false ∧ matches_dsa_id "foo" = false ∧
    matches_rhsa_id "foo" = false ∧ create_vuln "foo" none = none :=
  ⟨by decide, by decide, by decide,
    c4_unrecognized_returns_none "foo" none (by decide) (by decide) (by decide)⟩

/-! ## Helper lemmas for the block extractor -/

theorem pfbGo_skip (sb eb : String → Bool) (sp : String → Option (List String)) :
    ∀ (pre ls : List String), (∀ l ∈ pre, sb (rstrip l) = false) →
      pfbGo sb eb sp (pre ++ ls) false = pfbGo sb eb sp ls false
  | [], _, _ => rfl
  | l :: pre, ls, h => by
    have hl : sb (rstrip l) = false := h l (List.mem_cons_self _ _)
    simp only [List.cons_append, pfbGo, hl]
    simp only [Bool.false_eq_true, if_false]
    exact pfbGo_skip sb eb sp pre ls (fun x hx => h x (List.mem_cons_of_mem _ hx))

theorem pfbGo_block (sb eb : String → Bool) (sp : String → Option (List String))
    (e : String) (rest : List String) (he : eb (rstrip e) = true) :
    ∀ (body : List String), (∀ l ∈ body, eb (rstrip l) = false) →
      pfbGo sb eb sp (body ++ e :: rest) true = body.filterMap (fun l => sp (rstrip l))
  | [], _ => by simp [pfbGo, he]
  | l :: body, h => by
    have hl : eb (rstrip l) = false := h l (List.mem_cons_self _ _)
    have ih := pfbGo_block sb eb sp e rest he body (fun x hx => h x (List.mem_cons_of_mem _ hx))
    simp only [List.cons_append, pfbGo, hl, Bool.false_eq_true, if_false, if_true]
    cases hsp : sp (rstrip l) with
    | none => simp [hsp, ih, List.filterMap_cons]
    | some g => simp [hsp, ih, List.filterMap_cons]

/-! ## Claims about the block extractor -/

/-- Claim C7: on an input holding two blocks, the block extractor yields
exactly the capture-group records of the first block and stops at the first
line matching end_block; nothing after it — in particular the whole second
block — is ever inspected.  The source parse_file_by_block has no as_per_block
parameter, so this first-block-only behaviour is what a configuration with
as_per_block false obtains. -/
theorem c7_first_block_only (sb eb : String → Bool) (sp : String → Option (List String))
    (pre body1 mid body2 post : List String) (s1 e1 s2 e2 : String)
    (hpre : ∀ l ∈ pre, sb (rstrip l) = false)
    (hs1 : sb (rstrip s1) = true)
    (hb1 : ∀ l ∈ body1, eb (rstrip l) = false)
    (he1 : eb (rstrip e1) = true)
    (_hs2 : sb (rstrip s2) = true) :
    parse_file_by_block
        (pre ++ (s1 :: (body1 ++ (e1 :: (mid ++ (s2 :: (body2 ++ (e2 :: post)))))))) sb eb sp
      = body1.filterMap (fun l => sp (rstrip l)) := by
  unfold parse_file_by_block
  rw [pfbGo_skip sb eb sp pre _ hpre]
  simp only [pfbGo, hs1, if_true, Bool.false_eq_true, if_false]
  exact pfbGo_block sb eb sp e1 _ he1 body1 hb1

/-- Witness for C7: a two-block Debian-advisory-style document with the DSA
patterns for DSA-4321-1; only the first block's record comes out. -/
theorem c7_witness :
    parse_file_by_block
      [ "[01 Jan 2020] DSA-4321-1 pkgname", " \x7bCVE-2021-0001\x7d"
      , " [02 Feb 2020] DSA-9999-1 other"
      , "[03 Mar 2020] DSA-4321-1 pkgname", " \x7bCVE-2021-0002\x7d"
      , " [04 Apr 2020] DSA-9998-1 other" ]
      (dsa_start_block "DSA-4321-1") dsa_end_block dsa_search_params
      = [["CVE-2021-0001"]] :=
  c7_first_block_only (dsa_start_block "DSA-4321-1") dsa_end_block dsa_search_params
    [] [" \x7bCVE-2021-0001\x7d"] [] [" \x7bCVE-2021-0002\x7d"] []
    "[01 Jan 2020] DSA-4321-1 pkgname" " [02 Feb 2020] DSA-9999-1 other"
    "[03 Mar 2020] DSA-4321-1 pkgname" " [04 Apr 2020] DSA-9998-1 other"
    (by decide) (by decide) (by decide) (by decide) (by decide)

/-- The failing input for claim C1: a document holding two blocks for
DSA-4321-1, each closed by an end_block line and each holding one record. -/
def dsa_two_block_doc : List String :=
  [ "[01 Jan 2020] DSA-4321-1 pkgname", " \x7bCVE-2021-0001\x7d"
  , " [02 Jan 2020] DSA-5000-1 other"
  , "[03 Jan 2020] DSA-4321-1 pkgname", " \x7bCVE-2021-0002\x7d"
  , " [04 Jan 2020] DSA-5001-1 other" ]

/-- Claim C1 (code bug): the claim and the spec say that with as_per_block
true the scanner re-arms after closing a block and yields the records of
every block; the DSA configuration indeed sets as_per_block to True; but
parse_file_by_block (utils.py:49-64) does not even take as_per_block — it
breaks at the first end_block match, so on the two-block document only the
first block's record is yielded, not both. -/
theorem c1_extractor_ignores_as_per_block :
    getAttr (DSA_mk "DSA-4321-1" none) "as_per_block" = some (.boolV true) ∧
    parse_file_by_block dsa_two_block_doc (dsa_start_block "DSA-4321-1")
      dsa_end_block dsa_search_params = [["CVE-2021-0001"]] ∧
    ([["CVE-2021-0001"]] : List (List String)) ≠ [["CVE-2021-0001"], ["CVE-2021-0002"]] :=
  ⟨rfl, rfl, by decide⟩

/-! ## Claims about the translation resolver and the extractors -/

theorem exceptBind_ok {ε α β : Type} (a : α) (f : α → Except ε β) :
    (Bind.bind (Except.ok a) f) = f a := rfl

theorem exceptBind_error {ε α β : Type} (e : ε) (f : α → Except ε β) :
    (Bind.bind (Except.error e) f) = Except.error e := rfl

/-- Claim C5: for every indirect vulnerability and fetched bytes, the
translation resolver fails with TranslationError exactly when record
extraction yields zero records; a successful resolution never carries an
empty equivalents list. -/
theorem c5_zero_records_translation_error (v : UnparsableVuln) (bytes : String) :
    (extract_records v bytes = .ok [] → resolve v bytes = .error .translationError) ∧
    (∀ l, resolve v bytes = .ok l → l ≠ []) := by
  constructor
  · intro h
    simp only [resolve]
    rw [h, exceptBind_ok]
    rfl
  · intro l hl
    simp only [resolve] at hl
    cases hx : extract_records v bytes with
    | error e =>
      rw [hx, exceptBind_error] at hl
      exact Except.noConfusion hl
    | ok recs =>
      rw [hx, exceptBind_ok] at hl
      cases recs with
      | nil => simp at hl
      | cons a as =>
        simp only [List.isEmpty_cons, Bool.false_eq_true, if_false, Except.ok.injEq] at hl
        intro hnil
        rw [hnil] at hl
        simp at hl

/-- Witness for C5: the DSA vulnerability resolved against an empty document
extracts zero records, so resolution fails with TranslationError. -/
theorem c5_witness :
    resolve (DSA_mk "DSA-4321-1" none) "" = .error .translationError :=
  (c5_zero_records_translation_error (DSA_mk "DSA-4321-1" none) "").1 rfl

/-- The fetched response of the C6 scenario: the RHSA JSON API locator with
a body that is not JSON. -/
def rhsa_demo_response : Response :=
  { url := "https://access.redhat.com/labs/securitydataapi/cve.json?advisory=RHSA:2020-1234"
    body := "not json" }

/-- Counterexample to claim C6 as stated: on malformed JSON bytes the code
(json_response_to_xml, utils.py:43-46) propagates the generic
json.JSONDecodeError of json.loads; it does not produce the specification's
MalformedSourceError carrying the source locator — no code in the
repository constructs that error at all. -/
theorem c6_counterexample :
    json_response_to_xml rhsa_demo_response = .error .jsonDecodeError ∧
    json_response_to_xml rhsa_demo_response
      ≠ .error (.malformedSourceError rhsa_demo_response.url) := by
  refine ⟨rfl, ?_⟩
  intro h
  rw [show json_response_to_xml rhsa_demo_response = .error .jsonDecodeError from rfl] at h
  simp at h

/-- Claim C6 as amended: when json.loads fails on the body, the generic
JSONDecodeError propagates unchanged out of json_response_to_xml — no
partial result is returned, and the error is never the specification's
locator-carrying MalformedSourceError. -/
theorem c6_amended_generic_error (r : Response)
    (h : json_loads r.body = .error .jsonDecodeError) :
    json_response_to_xml r = .error .jsonDecodeError ∧
    ∀ loc, json_response_to_xml r ≠ .error (.malformedSourceError loc) := by
  have h1 : json_response_to_xml r = .error .jsonDecodeError := by
    simp only [json_response_to_xml]
    rw [h, exceptBind_error]
  refine ⟨h1, ?_⟩
  intro loc hl
  rw [h1] at hl
  simp at hl

/-- Witness for C6's amended claim at the concrete malformed response. -/
theorem c6_amended_witness :
    json_response_to_xml rhsa_demo_response = .error .jsonDecodeError :=
  (c6_amended_generic_error rhsa_demo_response rfl).1

/-- Claim C8: parse_dict with an empty key_list returns the empty result for
every dictionary (indeed for every value — the early exit precedes any
access to the argument) and in both extraction modes; it never raises. -/
theorem c8_empty_key_list (dictionary : PyVal) (get_key : Bool) :
    parse_dict dictionary [] get_key = .ok [] := rfl

/-- Claim C9: UnparsableVulnerability construction accepts exactly the
recognized extraction-config keys — an injected attribute exists if and only
if it was passed and its key is one of allowed_keys — every unrecognized key
is dropped without error, and no other constructor-set field depends on the
keyword arguments. -/
theorem c9_recognized_keys_only (vid : String) (pkgs : Packages) (burl pmode : String)
    (eps : Option (List String)) (kwargs : List (String × AttrValue)) :
    (∀ k v, (k, v) ∈ (UnparsableVulnerability_init vid pkgs burl pmode eps kwargs).attrs
      ↔ ((k, v) ∈ kwargs ∧ k ∈ allowed_keys)) ∧
    (UnparsableVulnerability_init vid pkgs burl pmode eps kwargs).vuln_id = vid ∧
    (UnparsableVulnerability_init vid pkgs burl pmode eps kwargs).packages = pkgs ∧
    (UnparsableVulnerability_init vid pkgs burl pmode eps kwargs).base_url = burl ∧
    (UnparsableVulnerability_init vid pkgs burl pmode eps kwargs).parse_mode = pmode ∧
    (UnparsableVulnerability_init vid pkgs burl pmode eps kwargs).equivalent_vulns = [] ∧
    (UnparsableVulnerability_init vid pkgs burl pmode eps kwargs).entrypoint_urls
      = (UnparsableVulnerability_init vid pkgs burl pmode eps []).entrypoint_urls := by
  refine ⟨?_, rfl, rfl, rfl, rfl, rfl, rfl⟩
  intro k v
  simp [UnparsableVulnerability_init, List.mem_filter]

/-! ## Helper lemmas for the key-pattern semantics of parse_dict -/

theorem matchLit_CVE : ∀ l : List Char, matchLit ['C', 'V', 'E'] l = ['C', 'V', 'E'].isPrefixOf l
  | [] => rfl
  | [_] => by simp [matchLit, List.isPrefixOf]
  | [_, _] => by simp [matchLit, List.isPrefixOf]
  | _ :: _ :: _ :: _ => by simp [matchLit, List.isPrefixOf]

theorem re_match_CVE (k : String) :
    re_match "CVE" k = ['C', 'V', 'E'].isPrefixOf k.toList := by
  have hs : stripCaret "CVE".toList = ['C', 'V', 'E'] := rfl
  rw [re_match, hs, matchLit_CVE]

theorem parse_dict_level_last (sub : PyVal → Except PyError (List PyVal)) (p : String) :
    ∀ entries : List (String × PyVal),
      parse_dict_level sub p true false entries
        = .ok ((entries.filter (fun kv => re_match p kv.1)).map (fun kv => kv.2))
  | [] => rfl
  | (k, v) :: es => by
    have ih := parse_dict_level_last sub p es
    cases hm : re_match p k with
    | true =>
      simp only [parse_dict_level, hm, if_true, ih, exceptBind_ok, List.filter_cons,
        List.map_cons]
      rfl
    | false =>
      simp only [parse_dict_level, hm, Bool.false_eq_true, if_false, ih, List.filter_cons]

/-- Claim C10: the dictionary-path extractor selects keys by prefix-anchored
matching, never full-match: with the default RHSA key_list (the single
pattern CVE), parse_dict collects the value of every key the pattern matches
at its beginning — for an arbitrary dictionary exactly the keys starting
with CVE — so a key CVE and a key CVE-2020-1234 are both selected. -/
theorem c10_prefix_anchored_key_match :
    getAttr (RHSA_mk "RHSA:2020-1234" none) "key_list" = some (.keyListV ["CVE"]) ∧
    (∀ entries : List (String × PyVal),
      parse_dict (.dict entries) ["CVE"] false
        = .ok ((entries.filter (fun kv => ['C', 'V', 'E'].isPrefixOf kv.1.toList)).map
            (fun kv => kv.2))) ∧
    parse_dict (.dict [("CVE", .str "v0"), ("CVE-2020-1234", .str "v1"), ("other", .str "v2")])
        ["CVE"] false
      = .ok [.str "v0", .str "v1"] := by
  refine ⟨rfl, ?_, rfl⟩
  intro entries
  have h := parse_dict_level_last (fun v => parse_dict v [] false) "CVE" entries
  simp only [re_match_CVE] at h
  exact h
